import Mathlib

/-!
Verification of the rs-cache storage core against its specification.

The Rust sources are shallowly embedded: byte buffers become `List Nat`
(each element one byte), the `nom` big-endian readers become partial
functions returning `Option (value × rest)`, fallible operations return
`Option` or `Except`, and machine integers become `Nat` (with explicit
bounds where width matters).
-/

namespace RsCache

/-! ## Big-endian byte readers (the `nom` combinators used by `sec.rs`) -/

/-- Read one byte; `none` on a truncated buffer. -/
def be_u8 : List Nat → Option (Nat × List Nat)
  | b :: rest => some (b, rest)
  | [] => none

/-- Read a 2-byte big-endian unsigned integer. -/
def be_u16 : List Nat → Option (Nat × List Nat)
  | b1 :: b2 :: rest => some (b1 * 256 + b2, rest)
  | _ => none

/-- Read a 3-byte big-endian unsigned integer. -/
def be_u24 : List Nat → Option (Nat × List Nat)
  | b1 :: b2 :: b3 :: rest => some ((b1 * 256 + b2) * 256 + b3, rest)
  | _ => none

/-- Read a 4-byte big-endian unsigned integer. -/
def be_u32 : List Nat → Option (Nat × List Nat)
  | b1 :: b2 :: b3 :: b4 :: rest => some (((b1 * 256 + b2) * 256 + b3) * 256 + b4, rest)
  | _ => none

/-- Big-endian serialization of a value into one byte. -/
def toBe1 (n : Nat) : List Nat := [n % 256]

/-- Big-endian serialization of a value into two bytes. -/
def toBe2 (n : Nat) : List Nat := [n / 256 % 256, n % 256]

/-- Big-endian serialization of a value into three bytes. -/
def toBe3 (n : Nat) : List Nat := [n / 65536 % 256, n / 256 % 256, n % 256]

/-- Big-endian serialization of a value into four bytes. -/
def toBe4 (n : Nat) : List Nat := [n / 16777216 % 256, n / 65536 % 256, n / 256 % 256, n % 256]

/-! ## `sec.rs` — sectors, headers and layout selection -/

def SECTOR_HEADER_SIZE : Nat := 8
def SECTOR_EXPANDED_HEADER_SIZE : Nat := 10
def SECTOR_DATA_SIZE : Nat := 512
def SECTOR_EXPANDED_DATA_SIZE : Nat := 510
def SECTOR_SIZE : Nat := SECTOR_HEADER_SIZE + SECTOR_DATA_SIZE

/-- Two possible header layouts, `sec.rs` `SectorHeaderSize`. -/
inductive SectorHeaderSize where
  | Normal
  | Expanded
deriving DecidableEq

/-- Decoded sector header, `sec.rs` `SectorHeader`. -/
structure SectorHeader where
  archive_id : Nat
  chunk : Nat
  next : Nat
  index_id : Nat
deriving DecidableEq

/-- Sector with its payload, `sec.rs` `Sector`. -/
structure Sector where
  header : SectorHeader
  data_block : List Nat
deriving DecidableEq

/-- Archive locator, the `arc.rs` `Archive` struct as used by `sec.rs`. -/
structure Archive where
  id : Nat
  index_id : Nat
  sector : Nat
  length : Nat
deriving DecidableEq

/-- Validation errors of `SectorHeader::validate`, from `error.rs` `ReadError`. -/
inductive ReadError where
  | SectorArchiveMismatch (found expected : Nat)
  | SectorChunkMismatch (found expected : Nat)
  | SectorIndexMismatch (found expected : Nat)
deriving DecidableEq

/-- Layout selection `SectorHeaderSize::from_archive`: `Expanded` iff the
archive id exceeds `u16::MAX`. -/
def SectorHeaderSize.from_archive (archive : Archive) : SectorHeaderSize :=
  if archive.id > 65535 then .Expanded else .Normal

/-- The `From<SectorHeaderSize> for (usize, usize)` impl: header size and data
size for a layout. -/
def SectorHeaderSize.sizes : SectorHeaderSize → Nat × Nat
  | .Normal => (SECTOR_HEADER_SIZE, SECTOR_DATA_SIZE)
  | .Expanded => (SECTOR_EXPANDED_HEADER_SIZE, SECTOR_EXPANDED_DATA_SIZE)

/-- Header decoder `SectorHeader::new`: archive id (2 or 4 bytes by layout),
chunk (2 bytes), next pointer (3 bytes), index id (1 byte); returns the
unconsumed rest of the buffer alongside the header. -/
def SectorHeader.new (buffer : List Nat) (header_size : SectorHeaderSize) :
    Option (List Nat × SectorHeader) := do
  let (archive_id, buffer) ← match header_size with
    | .Normal => be_u16 buffer
    | .Expanded => be_u32 buffer
  let (chunk, buffer) ← be_u16 buffer
  let (next, buffer) ← be_u24 buffer
  let (index_id, buffer) ← be_u8 buffer
  some (buffer, { archive_id, chunk, next, index_id })

/-- Sector decoder `Sector::new`: decode the header, then take all remaining
bytes (`nom`'s `rest`) as the data block. -/
def Sector.new (buffer : List Nat) (header_size : SectorHeaderSize) : Option Sector := do
  let (buffer, header) ← SectorHeader.new buffer header_size
  some { header, data_block := buffer }

/-- Header validation `SectorHeader::validate`: checks archive id, then chunk,
then index id, returning the first mismatch. -/
def SectorHeader.validate (h : SectorHeader) (archive_id chunk index_id : Nat) :
    Except ReadError Unit :=
  if h.archive_id ≠ archive_id then
    .error (.SectorArchiveMismatch h.archive_id archive_id)
  else if h.chunk ≠ chunk then
    .error (.SectorChunkMismatch h.chunk chunk)
  else if h.index_id ≠ index_id then
    .error (.SectorIndexMismatch h.index_id index_id)
  else
    .ok ()

/-- Serialization of a header per the specified binary layout: archive id in
the layout's width, then chunk as u16, next as u24, index id as u8, all
big-endian.  The repository is read-only, so this encoder is the spec's
layout, written to feed the decoder `SectorHeader.new`. -/
def encodeSectorHeader (header_size : SectorHeaderSize) (archive_id chunk next index_id : Nat) :
    List Nat :=
  (match header_size with
    | .Normal => toBe2 archive_id
    | .Expanded => toBe4 archive_id)
  ++ toBe2 chunk ++ toBe3 next ++ toBe1 index_id

/-- Width bound on the archive id a layout can carry. -/
def SectorHeaderSize.archiveBound : SectorHeaderSize → Nat
  | .Normal => 65536
  | .Expanded => 4294967296

/-! ## `checksum.rs` — the per-index CRC/revision table -/

/-- One table entry, `checksum.rs` `Entry`. -/
structure Entry where
  crc : Nat
  revision : Nat
deriving DecidableEq

/-- The checksum table, `checksum.rs` `Checksum`: an ordered list of entries. -/
structure Checksum where
  entries : List Entry
deriving DecidableEq

/-- Appends an entry, `Checksum::push`. -/
def Checksum.push (cs : Checksum) (entry : Entry) : Checksum :=
  { cs with entries := cs.entries ++ [entry] }

/-- CRC validation `Checksum::validate_crcs`: collect the crc of every entry
in order and compare the resulting sequence with the candidate sequence. -/
def Checksum.validate_crcs (cs : Checksum) (crcs : List Nat) : Bool :=
  cs.entries.map Entry.crc == crcs

/-- Modelled from the spec: the codec module (`codec.rs`) is not under `src/`.
Envelope produced by the encoder for compression = none — a one-byte tag 0,
the payload length as 4-byte big-endian, the raw payload unchanged, and a
trailing 2-byte big-endian revision only when one is supplied. -/
def codecEncodeNone (data : List Nat) (revision : Option Nat) : List Nat :=
  0 :: toBe4 data.length ++ data ++
    (match revision with
      | some r => toBe2 r
      | none => [])

/-- Serialization of one entry as written by the loop in `Checksum::encode`:
4-byte big-endian crc followed by 4-byte big-endian revision. -/
def entryBytes (e : Entry) : List Nat := toBe4 e.crc ++ toBe4 e.revision

/-- Consuming serialization `Checksum::encode`: concatenate every entry's crc
and revision as 4-byte big-endian values in insertion order, then wrap the
buffer through the codec with compression = none and no revision suffix. -/
def Checksum.encode (cs : Checksum) : List Nat :=
  codecEncodeNone
    (cs.entries.foldl (fun buffer entry => buffer ++ entryBytes entry) []) none

/-! ## Archive reassembly — spec-modelled `SectorChain` -/

/-- Errors of the archive reassembly read: missing block, truncated block,
header mismatch, and the infinite-chain guard. -/
inductive ChainError where
  | BlockNotFound (offset : Nat)
  | Truncated
  | Mismatch (e : ReadError)
  | ChainGuard
deriving DecidableEq

/-- Modelled from the spec: the safety margin of the infinite-chain guard,
the small number of blocks the read may exceed the expected block count by
before it aborts (the sector-chain module is not under `src/`). -/
def CHAIN_SAFETY_MARGIN : Nat := 2

/-- Modelled from the spec: the reassembly loop of the archive read, §4.4 of
the spec, instrumented with the list of sector offsets it visits.  Each
iteration reads the block at the current offset from the source, decodes it
as a sector, validates the header against the locator identity and the
running chunk counter, appends `min payload_size bytes_remaining` payload
bytes, stops successfully once no bytes remain and otherwise follows the
header's next pointer.  Fuel starts at the expected block count plus the
safety margin; running out of fuel is the infinite-chain guard error. -/
def chainLoop (source : Nat → Option (List Nat)) (layout : SectorHeaderSize)
    (archive_id index_id dsize : Nat) :
    Nat → Nat → Nat → Nat → List Nat → (List Nat × Except ChainError (List Nat))
  | 0, _, _, _, _ => ([], .error .ChainGuard)
  | fuel + 1, chunk, remaining, offset, acc =>
    match source offset with
    | none => ([offset], .error (.BlockNotFound offset))
    | some block =>
      match Sector.new block layout with
      | none => ([offset], .error .Truncated)
      | some s =>
        match s.header.validate archive_id chunk index_id with
        | .error e => ([offset], .error (.Mismatch e))
        | .ok _ =>
          if remaining - min dsize remaining = 0 then
            ([offset], .ok (acc ++ s.data_block.take (min dsize remaining)))
          else
            (offset :: (chainLoop source layout archive_id index_id dsize fuel
                (chunk + 1) (remaining - min dsize remaining) s.header.next
                (acc ++ s.data_block.take (min dsize remaining))).1,
              (chainLoop source layout archive_id index_id dsize fuel
                (chunk + 1) (remaining - min dsize remaining) s.header.next
                (acc ++ s.data_block.take (min dsize remaining))).2)

/-- Modelled from the spec: `read_archive` of §4.4 together with the visited
offsets.  The layout is selected from the locator's id, the expected block
count is the ceiling of the byte length over the layout's payload size, and
the loop starts at the locator's start sector with chunk 0. -/
def readArchiveT (source : Nat → Option (List Nat)) (locator : Archive) :
    List Nat × Except ChainError (List Nat) :=
  chainLoop source (SectorHeaderSize.from_archive locator) locator.id locator.index_id
    (SectorHeaderSize.from_archive locator).sizes.2
    ((locator.length + (SectorHeaderSize.from_archive locator).sizes.2 - 1) /
        (SectorHeaderSize.from_archive locator).sizes.2 + CHAIN_SAFETY_MARGIN)
    0 locator.length locator.sector []

/-- Modelled from the spec: the archive read itself — the reassembled buffer
or the first error. -/
def read_archive (source : Nat → Option (List Nat)) (locator : Archive) :
    Except ChainError (List Nat) :=
  (readArchiveT source locator).2

/-- Chunk value stored in the header of the block a source holds at an
offset, when that block decodes. -/
def chunkAt (source : Nat → Option (List Nat)) (layout : SectorHeaderSize)
    (offset : Nat) : Option Nat :=
  match source offset with
  | none => none
  | some block => (Sector.new block layout).map (fun s => s.header.chunk)

/-- Storage with a single block at offset 0 whose next pointer loops back to
offset 0: a normal-layout header for archive 0, chunk 0, index 0, followed by
512 payload bytes. -/
def cycleSource : Nat → Option (List Nat) := fun offset =>
  if offset = 0 then some (encodeSectorHeader .Normal 0 0 0 0 ++ List.replicate 512 7)
  else none

/-- Locator asking for 513 bytes of archive 0 starting at sector 0, so the
read must follow the (cyclic) next pointer after the first block. -/
def cycleLocator : Archive := ⟨0, 0, 0, 513⟩

/-! ## `definition/osrs/item_def.rs` — the item-definition decoder

The byte-cursor extension the decoder reads through (`read_u8`, `read_u16`,
`read_i32`, `read_string`, ...) is not under `src/`; those readers are
modelled from the spec's ByteCursor description (sequential big-endian
reader producing fixed-width integers and terminated strings). -/

/-- Two's-complement reading of an 8-bit value. -/
def toI8 (n : Nat) : Int := if n < 128 then (n : Int) else (n : Int) - 256

/-- Two's-complement reading of a 32-bit value. -/
def toI32 (n : Nat) : Int := if n < 2147483648 then (n : Int) else (n : Int) - 4294967296

/-- Read one byte as a signed 8-bit integer. -/
def read_i8 (buf : List Nat) : Option (Int × List Nat) :=
  (be_u8 buf).map (fun r => (toI8 r.1, r.2))

/-- Read four big-endian bytes as a signed 32-bit integer. -/
def read_i32 (buf : List Nat) : Option (Int × List Nat) :=
  (be_u32 buf).map (fun r => (toI32 r.1, r.2))

/-- Modelled from the spec: terminated-string read of the byte-cursor
extension — the bytes up to a 0 terminator, the terminator consumed. -/
def read_string : List Nat → Option (List Nat × List Nat)
  | [] => none
  | 0 :: rest => some ([], rest)
  | b :: rest => (read_string rest).map (fun r => (b :: r.1, r.2))

/-- Value stored for one parameter: a string or a 32-bit integer. -/
inductive ParamValue where
  | str (bytes : List Nat)
  | int (value : Int)
deriving DecidableEq

/-- Map insertion for the parameter table: replace the value under an
existing key, else append. -/
def insertParam (m : List (Nat × ParamValue)) (key : Nat) (v : ParamValue) :
    List (Nat × ParamValue) :=
  if m.any (fun p => p.1 = key) then
    m.map (fun p => if p.1 = key then (key, v) else p)
  else m ++ [(key, v)]

/-- Modelled from the spec: body of `util::read_parameters`, which is not
under `src/`; the shape follows the parameter block the in-tree npc decoder
reads inline for opcode 249 — per parameter a string-flag byte, a 3-byte
key, and either a terminated string or a 4-byte integer value. -/
def read_parameters_loop : Nat → List Nat → List (Nat × ParamValue) →
    Option (List (Nat × ParamValue) × List Nat)
  | 0, buf, acc => some (acc, buf)
  | n + 1, buf, acc => do
    let (is_string, buf) ← be_u8 buf
    let (key, buf) ← be_u24 buf
    if is_string = 1 then
      let (s, buf) ← read_string buf
      read_parameters_loop n buf (insertParam acc key (.str s))
    else
      let (v, buf) ← read_i32 buf
      read_parameters_loop n buf (insertParam acc key (.int v))

/-- Modelled from the spec: `util::read_parameters` — a count byte followed
by that many parameters. -/
def read_parameters (buf : List Nat) : Option (List (Nat × ParamValue) × List Nat) := do
  let (len, buf) ← be_u8 buf
  read_parameters_loop len buf []

/-- Inventory model block of an item definition. -/
structure InventoryModelData where
  inventory_model : Nat := 0
  zoom2d : Nat := 0
  x_an2d : Nat := 0
  y_an2d : Nat := 0
  z_an2d : Nat := 0
  x_offset2d : Nat := 0
  y_offset2d : Nat := 0
  resize_x : Nat := 0
  resize_y : Nat := 0
  resize_z : Nat := 0
  color_find : List Nat := []
  color_replace : List Nat := []
  texture_find : List Nat := []
  texture_replace : List Nat := []
  ambient : Int := 0
  contrast : Int := 0
deriving DecidableEq

/-- Character model block of an item definition. -/
structure CharacterModelData where
  male_model10 : Option Nat := none
  male_model_offset : Nat := 0
  male_model1 : Option Nat := none
  female_model10 : Option Nat := none
  female_model_offset : Nat := 0
  female_model1 : Option Nat := none
  male_model12 : Option Nat := none
  female_model12 : Option Nat := none
  male_head_model1 : Option Nat := none
  female_head_model1 : Option Nat := none
  male_head_model2 : Option Nat := none
  female_head_model2 : Option Nat := none
deriving DecidableEq

/-- The item definition record; strings are kept as their byte sequences. -/
structure ItemDefinition where
  id : Nat := 0
  name : List Nat := []
  stackable : Bool := false
  cost : Int := 0
  members_only : Bool := false
  options : List (List Nat) := [[], [], [], [], []]
  interface_options : List (List Nat) := [[], [], [], [], []]
  tradable : Bool := false
  noted_id : Option Nat := none
  noted_template : Option Nat := none
  stack_ids : Option (List Nat) := none
  stack_count : Option (List Nat) := none
  team : Nat := 0
  bought_link : Option Nat := none
  bought_tempalte : Option Nat := none
  shift_click_drop_index : Option Nat := none
  params : List (Nat × ParamValue) := []
  inventory_model_data : InventoryModelData := {}
  character_model_data : CharacterModelData := {}
  weight : Nat := 0
  category : Nat := 0
  placeholder_id : Option Nat := none
  placeholder_template_id : Option Nat := none
deriving DecidableEq

/-- Initial definition built at the top of `decode_buffer`: resize factors
128, zoom 2000, option 2 preset to the bytes of "Take" and interface option
4 to the bytes of "Drop". -/
def initItemDef (id : Nat) : ItemDefinition :=
  { id
    inventory_model_data := { resize_x := 128, resize_y := 128, resize_z := 128, zoom2d := 2000 }
    options := [[], [], [84, 97, 107, 101], [], []]
    interface_options := [[], [], [], [], [68, 114, 111, 112]] }

/-- Outcome of processing one opcode: continue with an updated definition
and remaining buffer, break out of the loop, fail on a truncated read, or
hit the catch-all `unreachable` arm. -/
inductive Step where
  | go (d : ItemDefinition) (buf : List Nat)
  | stop (d : ItemDefinition)
  | eof
  | unreach

/-- Read a 2-byte value and continue with the updated definition. -/
def stepU16 (buf : List Nat) (f : Nat → ItemDefinition) : Step :=
  match be_u16 buf with
  | none => .eof
  | some (v, buf) => .go (f v) buf

/-- Read a 1-byte value and continue with the updated definition. -/
def stepU8 (buf : List Nat) (f : Nat → ItemDefinition) : Step :=
  match be_u8 buf with
  | none => .eof
  | some (v, buf) => .go (f v) buf

/-- Read a signed byte and continue with the updated definition. -/
def stepI8 (buf : List Nat) (f : Int → ItemDefinition) : Step :=
  match read_i8 buf with
  | none => .eof
  | some (v, buf) => .go (f v) buf

/-- Read a signed 4-byte value and continue with the updated definition. -/
def stepI32 (buf : List Nat) (f : Int → ItemDefinition) : Step :=
  match read_i32 buf with
  | none => .eof
  | some (v, buf) => .go (f v) buf

/-- Read a terminated string and continue with the updated definition. -/
def stepString (buf : List Nat) (f : List Nat → ItemDefinition) : Step :=
  match read_string buf with
  | none => .eof
  | some (s, buf) => .go (f s) buf

/-- Read `n` pairs of 2-byte values into two parallel lists, the loop bodies
of opcodes 40 and 41. -/
def readPairList : Nat → List Nat → Option (List Nat × List Nat × List Nat)
  | 0, buf => some ([], [], buf)
  | n + 1, buf => do
    let (a, buf) ← be_u16 buf
    let (b, buf) ← be_u16 buf
    let (as_, bs, buf) ← readPairList n buf
    some (a :: as_, b :: bs, buf)

/-! Field updates of the decoder, one named function per mutation the
source's arms perform on the running definition.  Named functions keep the
dispatch below readable; each is exactly one source assignment (or the pair
of assignments one arm performs). -/

def setInventoryModel (d : ItemDefinition) (v : Nat) : ItemDefinition :=
  { d with inventory_model_data := { d.inventory_model_data with inventory_model := v } }

def setName (d : ItemDefinition) (s : List Nat) : ItemDefinition := { d with name := s }

def setZoom2d (d : ItemDefinition) (v : Nat) : ItemDefinition :=
  { d with inventory_model_data := { d.inventory_model_data with zoom2d := v } }

def setXan2d (d : ItemDefinition) (v : Nat) : ItemDefinition :=
  { d with inventory_model_data := { d.inventory_model_data with x_an2d := v } }

def setYan2d (d : ItemDefinition) (v : Nat) : ItemDefinition :=
  { d with inventory_model_data := { d.inventory_model_data with y_an2d := v } }

def setZan2d (d : ItemDefinition) (v : Nat) : ItemDefinition :=
  { d with inventory_model_data := { d.inventory_model_data with z_an2d := v } }

def setXoffset2d (d : ItemDefinition) (v : Nat) : ItemDefinition :=
  { d with inventory_model_data := { d.inventory_model_data with x_offset2d := v } }

def setYoffset2d (d : ItemDefinition) (v : Nat) : ItemDefinition :=
  { d with inventory_model_data := { d.inventory_model_data with y_offset2d := v } }

def setStackable (d : ItemDefinition) : ItemDefinition := { d with stackable := true }

def setCost (d : ItemDefinition) (v : Int) : ItemDefinition := { d with cost := v }

def setMembersOnly (d : ItemDefinition) : ItemDefinition := { d with members_only := true }

def setMaleModel10 (d : ItemDefinition) (v w : Nat) : ItemDefinition :=
  { d with character_model_data :=
    { d.character_model_data with male_model10 := some v, male_model_offset := w } }

def setMaleModel1 (d : ItemDefinition) (v : Nat) : ItemDefinition :=
  { d with character_model_data := { d.character_model_data with male_model1 := some v } }

def setFemaleModel10 (d : ItemDefinition) (v w : Nat) : ItemDefinition :=
  { d with character_model_data :=
    { d.character_model_data with female_model10 := some v, female_model_offset := w } }

def setFemaleModel1 (d : ItemDefinition) (v : Nat) : ItemDefinition :=
  { d with character_model_data := { d.character_model_data with female_model1 := some v } }

def setOption (d : ItemDefinition) (k : Nat) (s : List Nat) : ItemDefinition :=
  { d with options := d.options.set k s }

def setInterfaceOption (d : ItemDefinition) (k : Nat) (s : List Nat) : ItemDefinition :=
  { d with interface_options := d.interface_options.set k s }

def setColors (d : ItemDefinition) (finds repls : List Nat) : ItemDefinition :=
  { d with inventory_model_data :=
    { d.inventory_model_data with color_find := finds, color_replace := repls } }

def setTextures (d : ItemDefinition) (finds repls : List Nat) : ItemDefinition :=
  { d with inventory_model_data :=
    { d.inventory_model_data with texture_find := finds, texture_replace := repls } }

def setShiftClickDropIndex (d : ItemDefinition) (v : Nat) : ItemDefinition :=
  { d with shift_click_drop_index := some v }

def setTradable (d : ItemDefinition) : ItemDefinition := { d with tradable := true }

def setWeight (d : ItemDefinition) (v : Nat) : ItemDefinition := { d with weight := v }

def setMaleModel12 (d : ItemDefinition) (v : Nat) : ItemDefinition :=
  { d with character_model_data := { d.character_model_data with male_model12 := some v } }

def setFemaleModel12 (d : ItemDefinition) (v : Nat) : ItemDefinition :=
  { d with character_model_data := { d.character_model_data with female_model12 := some v } }

def setMaleHeadModel1 (d : ItemDefinition) (v : Nat) : ItemDefinition :=
  { d with character_model_data := { d.character_model_data with male_head_model1 := some v } }

def setFemaleHeadModel1 (d : ItemDefinition) (v : Nat) : ItemDefinition :=
  { d with character_model_data := { d.character_model_data with female_head_model1 := some v } }

def setMaleHeadModel2 (d : ItemDefinition) (v : Nat) : ItemDefinition :=
  { d with character_model_data := { d.character_model_data with male_head_model2 := some v } }

def setFemaleHeadModel2 (d : ItemDefinition) (v : Nat) : ItemDefinition :=
  { d with character_model_data := { d.character_model_data with female_head_model2 := some v } }

def setCategory (d : ItemDefinition) (v : Nat) : ItemDefinition := { d with category := v }

def setNotedId (d : ItemDefinition) (v : Nat) : ItemDefinition := { d with noted_id := some v }

def setNotedTemplate (d : ItemDefinition) (v : Nat) : ItemDefinition :=
  { d with noted_template := some v, stackable := true }

/-- State of the stack fields after the 100..=109 arm ran: the source stores
fresh zero arrays into both fields and then matches them with
`Some(mut stack_ids)`; the array is bound by value, so the two 2-byte values
read from the buffer are written into copies that are dropped, and both
fields stay all-zero.  The arm's `_ => unreachable!()` branches cannot fire
since both fields were just set to `Some`. -/
def setStacksZero (d : ItemDefinition) : ItemDefinition :=
  { d with stack_ids := some (List.replicate 10 0),
           stack_count := some (List.replicate 10 0) }

def setResizeX (d : ItemDefinition) (v : Nat) : ItemDefinition :=
  { d with inventory_model_data := { d.inventory_model_data with resize_x := v } }

def setResizeY (d : ItemDefinition) (v : Nat) : ItemDefinition :=
  { d with inventory_model_data := { d.inventory_model_data with resize_y := v } }

def setResizeZ (d : ItemDefinition) (v : Nat) : ItemDefinition :=
  { d with inventory_model_data := { d.inventory_model_data with resize_z := v } }

def setAmbient (d : ItemDefinition) (v : Int) : ItemDefinition :=
  { d with inventory_model_data := { d.inventory_model_data with ambient := v } }

def setContrast (d : ItemDefinition) (v : Int) : ItemDefinition :=
  { d with inventory_model_data := { d.inventory_model_data with contrast := v } }

def setTeam (d : ItemDefinition) (v : Nat) : ItemDefinition := { d with team := v }

def setBoughtLink (d : ItemDefinition) (v : Nat) : ItemDefinition :=
  { d with bought_link := some v }

def setBoughtTemplate (d : ItemDefinition) (v : Nat) : ItemDefinition :=
  { d with bought_tempalte := some v }

def setPlaceholderId (d : ItemDefinition) (v : Nat) : ItemDefinition :=
  { d with placeholder_id := some v }

def setPlaceholderTemplateId (d : ItemDefinition) (v : Nat) : ItemDefinition :=
  { d with placeholder_template_id := some v }

def setParams (d : ItemDefinition) (ps : List (Nat × ParamValue)) : ItemDefinition :=
  { d with params := ps }

/-- One arm of the opcode dispatch of `decode_buffer` in `item_def.rs`, in
the source's arm order; opcode 0 breaks the loop, unknown opcodes reach the
catch-all `unreachable!()` arm. -/
def decodeStep (opcode : Nat) (d : ItemDefinition) (buf : List Nat) : Step :=
  if opcode = 0 then .stop d
  else if opcode = 1 then stepU16 buf (setInventoryModel d)
  else if opcode = 2 then stepString buf (setName d)
  else if opcode = 4 then stepU16 buf (setZoom2d d)
  else if opcode = 5 then stepU16 buf (setXan2d d)
  else if opcode = 6 then stepU16 buf (setYan2d d)
  else if opcode = 7 then stepU16 buf (setXoffset2d d)
  else if opcode = 8 then stepU16 buf (setYoffset2d d)
  else if opcode = 9 then stepString buf (fun _ => d)
  else if opcode = 11 then .go (setStackable d) buf
  else if opcode = 12 then stepI32 buf (setCost d)
  else if 13 ≤ opcode ∧ opcode ≤ 14 then stepU8 buf (fun _ => d)
  else if opcode = 16 then .go (setMembersOnly d) buf
  else if opcode = 23 then
    match be_u16 buf with
    | none => .eof
    | some (v, buf) =>
      match be_u8 buf with
      | none => .eof
      | some (w, buf) => .go (setMaleModel10 d v w) buf
  else if opcode = 24 then stepU16 buf (setMaleModel1 d)
  else if opcode = 25 then
    match be_u16 buf with
    | none => .eof
    | some (v, buf) =>
      match be_u8 buf with
      | none => .eof
      | some (w, buf) => .go (setFemaleModel10 d v w) buf
  else if opcode = 26 then stepU16 buf (setFemaleModel1 d)
  else if opcode = 27 then stepU8 buf (fun _ => d)
  else if 30 ≤ opcode ∧ opcode ≤ 34 then stepString buf (setOption d (opcode - 30))
  else if 35 ≤ opcode ∧ opcode ≤ 39 then stepString buf (setInterfaceOption d (opcode - 35))
  else if opcode = 40 then
    match be_u8 buf with
    | none => .eof
    | some (len, buf) =>
      match readPairList len buf with
      | none => .eof
      | some (finds, repls, buf) => .go (setColors d finds repls) buf
  else if opcode = 41 then
    match be_u8 buf with
    | none => .eof
    | some (len, buf) =>
      match readPairList len buf with
      | none => .eof
      | some (finds, repls, buf) => .go (setTextures d finds repls) buf
  else if opcode = 42 then stepU8 buf (setShiftClickDropIndex d)
  else if opcode = 65 then .go (setTradable d) buf
  else if opcode = 75 then stepU16 buf (setWeight d)
  else if opcode = 78 then stepU16 buf (setMaleModel12 d)
  else if opcode = 79 then stepU16 buf (setFemaleModel12 d)
  else if opcode = 90 then stepU16 buf (setMaleHeadModel1 d)
  else if opcode = 91 then stepU16 buf (setFemaleHeadModel1 d)
  else if opcode = 92 then stepU16 buf (setMaleHeadModel2 d)
  else if opcode = 93 then stepU16 buf (setFemaleHeadModel2 d)
  else if opcode = 94 then stepU16 buf (setCategory d)
  else if opcode = 95 then stepU16 buf (setZan2d d)
  else if opcode = 97 then stepU16 buf (setNotedId d)
  else if opcode = 98 then stepU16 buf (setNotedTemplate d)
  else if 100 ≤ opcode ∧ opcode ≤ 109 then
    match be_u16 buf with
    | none => .eof
    | some (_v, buf) =>
      match be_u16 buf with
      | none => .eof
      | some (_w, buf) => .go (setStacksZero d) buf
  else if opcode = 110 then stepU16 buf (setResizeX d)
  else if opcode = 111 then stepU16 buf (setResizeY d)
  else if opcode = 112 then stepU16 buf (setResizeZ d)
  else if opcode = 113 then stepI8 buf (setAmbient d)
  else if opcode = 114 then stepI8 buf (setContrast d)
  else if opcode = 115 then stepU8 buf (setTeam d)
  else if opcode = 139 then stepU16 buf (setBoughtLink d)
  else if opcode = 140 then stepU16 buf (setBoughtTemplate d)
  else if opcode = 148 then stepU16 buf (setPlaceholderId d)
  else if opcode = 149 then stepU16 buf (setPlaceholderTemplateId d)
  else if opcode = 249 then
    match read_parameters buf with
    | none => .eof
    | some (ps, buf) => .go (setParams d ps) buf
  else .unreach

/-- Outcome of a whole decode: the finished definition, an io error from a
read past the end of the buffer, the `unreachable` panic of the catch-all
arm, or fuel exhaustion (which the top-level entry never hits, as every
iteration consumes at least the opcode byte). -/
inductive DecodeResult where
  | ok (d : ItemDefinition)
  | ioError
  | unreachableHit
  | ranOut
deriving DecidableEq

/-- The opcode loop of `decode_buffer`, instrumented with the list of
opcodes it processes. -/
def decodeLoop : Nat → ItemDefinition → List Nat → (List Nat × DecodeResult)
  | 0, _, _ => ([], .ranOut)
  | fuel + 1, d, buf =>
    match be_u8 buf with
    | none => ([], .ioError)
    | some (opcode, buf) =>
      match decodeStep opcode d buf with
      | .stop d => ([opcode], .ok d)
      | .eof => ([opcode], .ioError)
      | .unreach => ([opcode], .unreachableHit)
      | .go d buf =>
        (opcode :: (decodeLoop fuel d buf).1, (decodeLoop fuel d buf).2)

/-- The decoder entry `decode_buffer` for an item definition, with the
processed-opcode trace; the fuel bound of one plus the buffer length can
never be reached. -/
def decode_buffer (id : Nat) (buffer : List Nat) : List Nat × DecodeResult :=
  decodeLoop (buffer.length + 1) (initItemDef id) buffer

end RsCache


namespace RsCache

/-! ## Theorems for claims C1, C2 and C5 -/

/-- C1: `SectorHeader.validate` succeeds exactly when all three fields match
the expected values; otherwise it returns the single error picked by the
fixed priority archive → chunk → index, short-circuiting on the first
failing check. -/
theorem validate_priority_order (h : SectorHeader) (a c i : Nat) :
    (h.validate a c i = .ok () ↔ (h.archive_id = a ∧ h.chunk = c ∧ h.index_id = i))
    ∧ (h.archive_id ≠ a →
        h.validate a c i = .error (.SectorArchiveMismatch h.archive_id a))
    ∧ (h.archive_id = a → h.chunk ≠ c →
        h.validate a c i = .error (.SectorChunkMismatch h.chunk c))
    ∧ (h.archive_id = a → h.chunk = c → h.index_id ≠ i →
        h.validate a c i = .error (.SectorIndexMismatch h.index_id i)) := by
  unfold SectorHeader.validate
  refine ⟨?_, ?_, ?_, ?_⟩ <;> split_ifs <;> simp_all

/-- Closed instance of `validate_priority_order`: the header
`{archive_id := 1, chunk := 0, next := 2, index_id := 255}` validated against
expected values `(0, 1, 255)` yields the archive mismatch. -/
theorem validate_priority_order_witness :
    SectorHeader.validate ⟨1, 0, 2, 255⟩ 0 1 255 =
      .error (.SectorArchiveMismatch 1 0) :=
  (validate_priority_order ⟨1, 0, 2, 255⟩ 0 1 255).2.1 (by decide)

/-- C2 counterexample: on the header `{archive_id := 1, chunk := 0,
index_id := 255}` the call `validate 0 1 255` reports an archive mismatch —
the header's archive id 1 differs from the expected 0 — not the chunk
mismatch the claim asserts. -/
theorem validate_spec_example_fails :
    SectorHeader.validate ⟨1, 0, 2, 255⟩ 0 1 255 =
        .error (.SectorArchiveMismatch 1 0)
    ∧ SectorHeader.validate ⟨1, 0, 2, 255⟩ 0 1 255 ≠
        .error (.SectorChunkMismatch 0 1) := by
  exact ⟨rfl, by intro hcontra; exact absurd hcontra (by simp [SectorHeader.validate])⟩

/-- C2 amended: on the header `{archive_id := 0, chunk := 0, index_id := 255}`
(the header used by the source's own test) `validate 0 1 255` reports a chunk
mismatch, and on the header `{archive_id := 1, chunk := 0, index_id := 255}`
the call `validate 1 0 0` reports an index mismatch. -/
theorem validate_spec_example_amended :
    SectorHeader.validate ⟨0, 0, 2, 255⟩ 0 1 255 =
        .error (.SectorChunkMismatch 0 1)
    ∧ SectorHeader.validate ⟨1, 0, 2, 255⟩ 1 0 0 =
        .error (.SectorIndexMismatch 255 0) :=
  ⟨rfl, rfl⟩

/-- C5: layout selection returns `Expanded` exactly when the archive id
exceeds the 16-bit maximum; in particular id 65535 selects `Normal` and
id 65536 selects `Expanded`. -/
theorem from_archive_boundary :
    (∀ a : Archive, SectorHeaderSize.from_archive a = .Expanded ↔ 65535 < a.id)
    ∧ SectorHeaderSize.from_archive ⟨65535, 0, 0, 0⟩ = .Normal
    ∧ SectorHeaderSize.from_archive ⟨65536, 0, 0, 0⟩ = .Expanded := by
  refine ⟨fun a => ?_, by decide, by decide⟩
  unfold SectorHeaderSize.from_archive
  split <;> simp_all

/-- C3: for either layout, serializing a representable field tuple with the
big-endian layout and decoding it with `SectorHeader.new` returns the
original tuple and consumes the whole buffer. -/
theorem header_roundtrip (hs : SectorHeaderSize) (a c n i : Nat)
    (ha : a < hs.archiveBound) (hc : c < 65536) (hn : n < 16777216) (hi : i < 256) :
    SectorHeader.new (encodeSectorHeader hs a c n i) hs = some ([], ⟨a, c, n, i⟩) := by
  cases hs <;>
    simp_all [SectorHeader.new, encodeSectorHeader, toBe1, toBe2, toBe3, toBe4,
      be_u8, be_u16, be_u24, be_u32, SectorHeaderSize.archiveBound] <;>
    omega

/-- Closed instance of `header_roundtrip` at the expanded layout with the
tuple `(70000, 1, 2, 3)`. -/
theorem header_roundtrip_witness :
    SectorHeader.new (encodeSectorHeader .Expanded 70000 1 2 3) .Expanded =
      some ([], ⟨70000, 1, 2, 3⟩) :=
  header_roundtrip .Expanded 70000 1 2 3 (by decide) (by decide) (by decide) (by decide)

/-- C4: `Sector.new` succeeds exactly when the buffer holds at least the
layout's header size, and on success the data block is the whole remainder
of the buffer past the header. -/
theorem sector_new_total_remainder (buffer : List Nat) (hs : SectorHeaderSize) :
    ((∃ s, Sector.new buffer hs = some s) ↔ hs.sizes.1 ≤ buffer.length)
    ∧ (∀ s, Sector.new buffer hs = some s →
        s.data_block = buffer.drop hs.sizes.1) := by
  cases hs
  case Normal =>
    rcases buffer with _ | ⟨b1, _ | ⟨b2, _ | ⟨b3, _ | ⟨b4, _ | ⟨b5, _ | ⟨b6, _ | ⟨b7,
        _ | ⟨b8, rest⟩⟩⟩⟩⟩⟩⟩⟩ <;>
      simp [Sector.new, SectorHeader.new, be_u8, be_u16, be_u24, be_u32,
        SectorHeaderSize.sizes, SECTOR_HEADER_SIZE]
  case Expanded =>
    rcases buffer with _ | ⟨b1, _ | ⟨b2, _ | ⟨b3, _ | ⟨b4, _ | ⟨b5, _ | ⟨b6, _ | ⟨b7,
        _ | ⟨b8, _ | ⟨b9, _ | ⟨b10, rest⟩⟩⟩⟩⟩⟩⟩⟩⟩⟩ <;>
      simp [Sector.new, SectorHeader.new, be_u8, be_u16, be_u24, be_u32,
        SectorHeaderSize.sizes, SECTOR_EXPANDED_HEADER_SIZE]

/-- Closed instance of `sector_new_total_remainder`: a 10-byte buffer with a
normal header leaves the last two bytes as the data block. -/
theorem sector_new_total_remainder_witness :
    (⟨⟨0, 0, 2, 255⟩, [9, 9]⟩ : Sector).data_block =
      List.drop 8 [0, 0, 0, 0, 0, 0, 2, 255, 9, 9] :=
  (sector_new_total_remainder [0, 0, 0, 0, 0, 0, 2, 255, 9, 9] .Normal).2
    ⟨⟨0, 0, 2, 255⟩, [9, 9]⟩ rfl

/-- C6: `validate_crcs` answers true exactly when the candidate sequence has
the same length as the entry list and agrees, position by position, with the
crc of the entry at that position. -/
theorem validate_crcs_iff (T : Checksum) (C : List Nat) :
    T.validate_crcs C = true ↔
      (C.length = T.entries.length ∧
        ∀ (p : Nat) (h1 : p < C.length) (h2 : p < T.entries.length),
          C.get ⟨p, h1⟩ = (T.entries.get ⟨p, h2⟩).crc) := by
  unfold Checksum.validate_crcs
  rw [beq_iff_eq]
  constructor
  · intro h
    subst h
    refine ⟨by simp, fun p h1 h2 => ?_⟩
    simp
  · rintro ⟨hlen, hget⟩
    apply List.ext_get
    · simpa using hlen.symm
    · intro p hp hp'
      simpa using (hget p hp' (by simpa using hp)).symm

/-- Closed instance of `validate_crcs_iff`: the table with crcs `[7, 9]`
accepts the candidate sequence `[7, 9]`. -/
theorem validate_crcs_iff_witness :
    Checksum.validate_crcs ⟨[⟨7, 1⟩, ⟨9, 2⟩]⟩ [7, 9] = true :=
  (validate_crcs_iff ⟨[⟨7, 1⟩, ⟨9, 2⟩]⟩ [7, 9]).mpr
    ⟨rfl, by
      intro p h1 h2
      have hp : p < 2 := by simpa using h1
      interval_cases p <;> rfl⟩

/-- The accumulating loop of `Checksum::encode` produces the concatenation of
the per-entry byte strings after the initial accumulator. -/
theorem foldl_entryBytes (l : List Entry) (acc : List Nat) :
    l.foldl (fun buffer entry => buffer ++ entryBytes entry) acc =
      acc ++ l.flatMap entryBytes := by
  induction l generalizing acc with
  | nil => simp
  | cons e l ih => simp [ih, List.append_assoc]

/-- C7: `Checksum::encode` wraps the in-order concatenation of 4-byte
big-endian crc and revision pairs in the none-compression codec envelope
with no revision suffix; on the entries `[(1234, 1), (5678, 2)]` the wrapped
payload is exactly the sixteen bytes `00 00 04 D2 00 00 00 01 00 00 16 2E 00
00 00 02`. -/
theorem checksum_encode_envelope :
    (∀ cs : Checksum, cs.encode = codecEncodeNone (cs.entries.flatMap entryBytes) none)
    ∧ Checksum.encode ⟨[⟨1234, 1⟩, ⟨5678, 2⟩]⟩ =
        codecEncodeNone [0x00, 0x00, 0x04, 0xD2, 0x00, 0x00, 0x00, 0x01,
          0x00, 0x00, 0x16, 0x2E, 0x00, 0x00, 0x00, 0x02] none := by
  constructor
  · intro cs
    unfold Checksum.encode
    rw [foldl_entryBytes]
    simp
  · decide

/-- Validation success forces the header's chunk to equal the expected one. -/
theorem validate_ok_chunk (h : SectorHeader) (a c i : Nat) (u : Unit)
    (hok : h.validate a c i = .ok u) : h.chunk = c := by
  unfold SectorHeader.validate at hok
  split_ifs at hok
  simp_all

/-- On a successful run, the block visited at position `p` of the loop's
trace stores chunk value `chunk + p` in its header. -/
theorem chainLoop_ok_chunkAt (source : Nat → Option (List Nat))
    (layout : SectorHeaderSize) (aid iid dsize : Nat) :
    ∀ (fuel chunk remaining offset : Nat) (acc buf : List Nat),
      (chainLoop source layout aid iid dsize fuel chunk remaining offset acc).2 = .ok buf →
      ∀ (p off : Nat),
        (chainLoop source layout aid iid dsize fuel chunk remaining offset acc).1.get? p =
          some off →
        chunkAt source layout off = some (chunk + p) := by
  intro fuel
  induction fuel with
  | zero => intro chunk remaining offset acc buf hok; simp [chainLoop] at hok
  | succ fuel ih =>
    intro chunk remaining offset acc buf hok p off hoff
    simp only [chainLoop] at hok hoff
    cases hsrc : source offset with
    | none => simp [hsrc] at hok
    | some block =>
      simp only [hsrc] at hok hoff
      cases hsec : Sector.new block layout with
      | none => simp [hsec] at hok
      | some s =>
        simp only [hsec] at hok hoff
        cases hval : s.header.validate aid chunk iid with
        | error e => simp [hval] at hok
        | ok u =>
          simp only [hval] at hok hoff
          by_cases hrem : remaining - min dsize remaining = 0
          · simp only [if_pos hrem] at hok hoff
            cases p with
            | zero =>
              simp only [List.get?_cons_zero, Option.some.injEq] at hoff
              subst hoff
              simp [chunkAt, hsrc, hsec, validate_ok_chunk s.header aid chunk iid u hval]
            | succ q => simp at hoff
          · simp only [if_neg hrem] at hok hoff
            cases p with
            | zero =>
              simp only [List.get?_cons_zero, Option.some.injEq] at hoff
              subst hoff
              simp [chunkAt, hsrc, hsec, validate_ok_chunk s.header aid chunk iid u hval]
            | succ q =>
              have hih := ih (chunk + 1) (remaining - min dsize remaining) s.header.next
                (acc ++ s.data_block.take (min dsize remaining)) buf hok q off
                (by simpa using hoff)
              have harith : chunk + (q + 1) = chunk + 1 + q := by omega
              rw [harith]
              exact hih

/-- C8: whenever the archive read revisits a sector offset (its visited-offset
trace has a duplicate — a cyclic next pointer), the read terminates with an
error rather than succeeding or looping forever. -/
theorem readArchive_cycle_errors (source : Nat → Option (List Nat))
    (locator : Archive) (hcyc : ¬ (readArchiveT source locator).1.Nodup) :
    ∃ e, (readArchiveT source locator).2 = .error e := by
  cases hres : (readArchiveT source locator).2 with
  | error e => exact ⟨e, rfl⟩
  | ok buf =>
    exfalso
    apply hcyc
    rw [List.nodup_iff_injective_get]
    intro ⟨p, hp⟩ ⟨q, hq⟩ hpq
    have h1 : chunkAt source (SectorHeaderSize.from_archive locator)
        ((readArchiveT source locator).1.get ⟨p, hp⟩) = some (0 + p) :=
      chainLoop_ok_chunkAt source (SectorHeaderSize.from_archive locator)
        locator.id locator.index_id (SectorHeaderSize.from_archive locator).sizes.2
        ((locator.length + (SectorHeaderSize.from_archive locator).sizes.2 - 1) /
            (SectorHeaderSize.from_archive locator).sizes.2 + CHAIN_SAFETY_MARGIN)
        0 locator.length locator.sector [] buf hres p
        ((readArchiveT source locator).1.get ⟨p, hp⟩) (List.get?_eq_get hp)
    have h2 : chunkAt source (SectorHeaderSize.from_archive locator)
        ((readArchiveT source locator).1.get ⟨q, hq⟩) = some (0 + q) :=
      chainLoop_ok_chunkAt source (SectorHeaderSize.from_archive locator)
        locator.id locator.index_id (SectorHeaderSize.from_archive locator).sizes.2
        ((locator.length + (SectorHeaderSize.from_archive locator).sizes.2 - 1) /
            (SectorHeaderSize.from_archive locator).sizes.2 + CHAIN_SAFETY_MARGIN)
        0 locator.length locator.sector [] buf hres q
        ((readArchiveT source locator).1.get ⟨q, hq⟩) (List.get?_eq_get hq)
    rw [hpq] at h1
    have hsome := h1.symm.trans h2
    simp only [Option.some.injEq] at hsome
    exact Fin.ext (show p = q by omega)

/-- Closed instance of `readArchive_cycle_errors`: the one-block cyclic
storage `cycleSource` with locator `cycleLocator` revisits offset 0 and the
read returns an error. -/
theorem readArchive_cycle_errors_witness :
    ∃ e, (readArchiveT cycleSource cycleLocator).2 = .error e :=
  readArchive_cycle_errors cycleSource cycleLocator (by decide)

end RsCache

namespace RsCache

/-- A `stepU16` arm either fails or continues with the updater applied to
the value it read. -/
theorem stepU16_go (buf : List Nat) (f : Nat → ItemDefinition) (d' : ItemDefinition)
    (b' : List Nat) (h : stepU16 buf f = .go d' b') : ∃ v, d' = f v := by
  unfold stepU16 at h
  split at h
  · cases h
  · cases h; exact ⟨_, rfl⟩

/-- A `stepU8` arm either fails or continues with the updater applied to
the value it read. -/
theorem stepU8_go (buf : List Nat) (f : Nat → ItemDefinition) (d' : ItemDefinition)
    (b' : List Nat) (h : stepU8 buf f = .go d' b') : ∃ v, d' = f v := by
  unfold stepU8 at h
  split at h
  · cases h
  · cases h; exact ⟨_, rfl⟩

/-- A `stepI8` arm either fails or continues with the updater applied to
the value it read. -/
theorem stepI8_go (buf : List Nat) (f : Int → ItemDefinition) (d' : ItemDefinition)
    (b' : List Nat) (h : stepI8 buf f = .go d' b') : ∃ v, d' = f v := by
  unfold stepI8 at h
  split at h
  · cases h
  · cases h; exact ⟨_, rfl⟩

/-- A `stepI32` arm either fails or continues with the updater applied to
the value it read. -/
theorem stepI32_go (buf : List Nat) (f : Int → ItemDefinition) (d' : ItemDefinition)
    (b' : List Nat) (h : stepI32 buf f = .go d' b') : ∃ v, d' = f v := by
  unfold stepI32 at h
  split at h
  · cases h
  · cases h; exact ⟨_, rfl⟩

/-- A `stepString` arm either fails or continues with the updater applied
to the string it read. -/
theorem stepString_go (buf : List Nat) (f : List Nat → ItemDefinition) (d' : ItemDefinition)
    (b' : List Nat) (h : stepString buf f = .go d' b') : ∃ v, d' = f v := by
  unfold stepString at h
  split at h
  · cases h
  · cases h; exact ⟨_, rfl⟩


/-- A `stepU16` arm never breaks the loop. -/
theorem stepU16_ne_stop (buf : List Nat) (f : Nat → ItemDefinition) (d0 : ItemDefinition) :
    stepU16 buf f ≠ .stop d0 := by
  unfold stepU16
  split
  · intro hcontra; cases hcontra
  · intro hcontra; cases hcontra

/-- A `stepU8` arm never breaks the loop. -/
theorem stepU8_ne_stop (buf : List Nat) (f : Nat → ItemDefinition) (d0 : ItemDefinition) :
    stepU8 buf f ≠ .stop d0 := by
  unfold stepU8
  split
  · intro hcontra; cases hcontra
  · intro hcontra; cases hcontra

/-- A `stepI8` arm never breaks the loop. -/
theorem stepI8_ne_stop (buf : List Nat) (f : Int → ItemDefinition) (d0 : ItemDefinition) :
    stepI8 buf f ≠ .stop d0 := by
  unfold stepI8
  split
  · intro hcontra; cases hcontra
  · intro hcontra; cases hcontra

/-- A `stepI32` arm never breaks the loop. -/
theorem stepI32_ne_stop (buf : List Nat) (f : Int → ItemDefinition) (d0 : ItemDefinition) :
    stepI32 buf f ≠ .stop d0 := by
  unfold stepI32
  split
  · intro hcontra; cases hcontra
  · intro hcontra; cases hcontra

/-- A `stepString` arm never breaks the loop. -/
theorem stepString_ne_stop (buf : List Nat) (f : List Nat → ItemDefinition) (d0 : ItemDefinition) :
    stepString buf f ≠ .stop d0 := by
  unfold stepString
  split
  · intro hcontra; cases hcontra
  · intro hcontra; cases hcontra

set_option maxHeartbeats 2000000 in
/-- Every dispatch arm that continues either leaves the two stack fields
unchanged or sets both to the all-zero arrays (the 100..=109 arm). -/
theorem decodeStep_stacks (op : Nat) (d : ItemDefinition) (buf : List Nat)
    (d' : ItemDefinition) (b' : List Nat) (h : decodeStep op d buf = .go d' b') :
    (d'.stack_ids = d.stack_ids ∧ d'.stack_count = d.stack_count)
    ∨ (d'.stack_ids = some (List.replicate 10 0)
        ∧ d'.stack_count = some (List.replicate 10 0)) := by
  unfold decodeStep at h
  by_cases c0 : op = 0
  · rw [if_pos c0] at h; cases h
  rw [if_neg c0] at h
  by_cases c1 : op = 1
  · rw [if_pos c1] at h
    obtain ⟨v, rfl⟩ := stepU16_go _ _ _ _ h
    left; exact ⟨rfl, rfl⟩
  rw [if_neg c1] at h
  by_cases c2 : op = 2
  · rw [if_pos c2] at h
    obtain ⟨v, rfl⟩ := stepString_go _ _ _ _ h
    left; exact ⟨rfl, rfl⟩
  rw [if_neg c2] at h
  by_cases c3 : op = 4
  · rw [if_pos c3] at h
    obtain ⟨v, rfl⟩ := stepU16_go _ _ _ _ h
    left; exact ⟨rfl, rfl⟩
  rw [if_neg c3] at h
  by_cases c4 : op = 5
  · rw [if_pos c4] at h
    obtain ⟨v, rfl⟩ := stepU16_go _ _ _ _ h
    left; exact ⟨rfl, rfl⟩
  rw [if_neg c4] at h
  by_cases c5 : op = 6
  · rw [if_pos c5] at h
    obtain ⟨v, rfl⟩ := stepU16_go _ _ _ _ h
    left; exact ⟨rfl, rfl⟩
  rw [if_neg c5] at h
  by_cases c6 : op = 7
  · rw [if_pos c6] at h
    obtain ⟨v, rfl⟩ := stepU16_go _ _ _ _ h
    left; exact ⟨rfl, rfl⟩
  rw [if_neg c6] at h
  by_cases c7 : op = 8
  · rw [if_pos c7] at h
    obtain ⟨v, rfl⟩ := stepU16_go _ _ _ _ h
    left; exact ⟨rfl, rfl⟩
  rw [if_neg c7] at h
  by_cases c8 : op = 9
  · rw [if_pos c8] at h
    obtain ⟨v, rfl⟩ := stepString_go _ _ _ _ h
    left; exact ⟨rfl, rfl⟩
  rw [if_neg c8] at h
  by_cases c9 : op = 11
  · rw [if_pos c9] at h; cases h; left; exact ⟨rfl, rfl⟩
  rw [if_neg c9] at h
  by_cases c10 : op = 12
  · rw [if_pos c10] at h
    obtain ⟨v, rfl⟩ := stepI32_go _ _ _ _ h
    left; exact ⟨rfl, rfl⟩
  rw [if_neg c10] at h
  by_cases c11 : 13 ≤ op ∧ op ≤ 14
  · rw [if_pos c11] at h
    obtain ⟨v, rfl⟩ := stepU8_go _ _ _ _ h
    left; exact ⟨rfl, rfl⟩
  rw [if_neg c11] at h
  by_cases c12 : op = 16
  · rw [if_pos c12] at h; cases h; left; exact ⟨rfl, rfl⟩
  rw [if_neg c12] at h
  by_cases c13 : op = 23
  · rw [if_pos c13] at h
    split at h
    · cases h
    split at h
    · cases h
    cases h; left; exact ⟨rfl, rfl⟩
  rw [if_neg c13] at h
  by_cases c14 : op = 24
  · rw [if_pos c14] at h
    obtain ⟨v, rfl⟩ := stepU16_go _ _ _ _ h
    left; exact ⟨rfl, rfl⟩
  rw [if_neg c14] at h
  by_cases c15 : op = 25
  · rw [if_pos c15] at h
    split at h
    · cases h
    split at h
    · cases h
    cases h; left; exact ⟨rfl, rfl⟩
  rw [if_neg c15] at h
  by_cases c16 : op = 26
  · rw [if_pos c16] at h
    obtain ⟨v, rfl⟩ := stepU16_go _ _ _ _ h
    left; exact ⟨rfl, rfl⟩
  rw [if_neg c16] at h
  by_cases c17 : op = 27
  · rw [if_pos c17] at h
    obtain ⟨v, rfl⟩ := stepU8_go _ _ _ _ h
    left; exact ⟨rfl, rfl⟩
  rw [if_neg c17] at h
  by_cases c18 : 30 ≤ op ∧ op ≤ 34
  · rw [if_pos c18] at h
    obtain ⟨v, rfl⟩ := stepString_go _ _ _ _ h
    left; exact ⟨rfl, rfl⟩
  rw [if_neg c18] at h
  by_cases c19 : 35 ≤ op ∧ op ≤ 39
  · rw [if_pos c19] at h
    obtain ⟨v, rfl⟩ := stepString_go _ _ _ _ h
    left; exact ⟨rfl, rfl⟩
  rw [if_neg c19] at h
  by_cases c20 : op = 40
  · rw [if_pos c20] at h
    split at h
    · cases h
    split at h
    · cases h
    cases h; left; exact ⟨rfl, rfl⟩
  rw [if_neg c20] at h
  by_cases c21 : op = 41
  · rw [if_pos c21] at h
    split at h
    · cases h
    split at h
    · cases h
    cases h; left; exact ⟨rfl, rfl⟩
  rw [if_neg c21] at h
  by_cases c22 : op = 42
  · rw [if_pos c22] at h
    obtain ⟨v, rfl⟩ := stepU8_go _ _ _ _ h
    left; exact ⟨rfl, rfl⟩
  rw [if_neg c22] at h
  by_cases c23 : op = 65
  · rw [if_pos c23] at h; cases h; left; exact ⟨rfl, rfl⟩
  rw [if_neg c23] at h
  by_cases c24 : op = 75
  · rw [if_pos c24] at h
    obtain ⟨v, rfl⟩ := stepU16_go _ _ _ _ h
    left; exact ⟨rfl, rfl⟩
  rw [if_neg c24] at h
  by_cases c25 : op = 78
  · rw [if_pos c25] at h
    obtain ⟨v, rfl⟩ := stepU16_go _ _ _ _ h
    left; exact ⟨rfl, rfl⟩
  rw [if_neg c25] at h
  by_cases c26 : op = 79
  · rw [if_pos c26] at h
    obtain ⟨v, rfl⟩ := stepU16_go _ _ _ _ h
    left; exact ⟨rfl, rfl⟩
  rw [if_neg c26] at h
  by_cases c27 : op = 90
  · rw [if_pos c27] at h
    obtain ⟨v, rfl⟩ := stepU16_go _ _ _ _ h
    left; exact ⟨rfl, rfl⟩
  rw [if_neg c27] at h
  by_cases c28 : op = 91
  · rw [if_pos c28] at h
    obtain ⟨v, rfl⟩ := stepU16_go _ _ _ _ h
    left; exact ⟨rfl, rfl⟩
  rw [if_neg c28] at h
  by_cases c29 : op = 92
  · rw [if_pos c29] at h
    obtain ⟨v, rfl⟩ := stepU16_go _ _ _ _ h
    left; exact ⟨rfl, rfl⟩
  rw [if_neg c29] at h
  by_cases c30 : op = 93
  · rw [if_pos c30] at h
    obtain ⟨v, rfl⟩ := stepU16_go _ _ _ _ h
    left; exact ⟨rfl, rfl⟩
  rw [if_neg c30] at h
  by_cases c31 : op = 94
  · rw [if_pos c31] at h
    obtain ⟨v, rfl⟩ := stepU16_go _ _ _ _ h
    left; exact ⟨rfl, rfl⟩
  rw [if_neg c31] at h
  by_cases c32 : op = 95
  · rw [if_pos c32] at h
    obtain ⟨v, rfl⟩ := stepU16_go _ _ _ _ h
    left; exact ⟨rfl, rfl⟩
  rw [if_neg c32] at h
  by_cases c33 : op = 97
  · rw [if_pos c33] at h
    obtain ⟨v, rfl⟩ := stepU16_go _ _ _ _ h
    left; exact ⟨rfl, rfl⟩
  rw [if_neg c33] at h
  by_cases c34 : op = 98
  · rw [if_pos c34] at h
    obtain ⟨v, rfl⟩ := stepU16_go _ _ _ _ h
    left; exact ⟨rfl, rfl⟩
  rw [if_neg c34] at h
  by_cases c35 : 100 ≤ op ∧ op ≤ 109
  · rw [if_pos c35] at h
    split at h
    · cases h
    split at h
    · cases h
    cases h; right; exact ⟨rfl, rfl⟩
  rw [if_neg c35] at h
  by_cases c36 : op = 110
  · rw [if_pos c36] at h
    obtain ⟨v, rfl⟩ := stepU16_go _ _ _ _ h
    left; exact ⟨rfl, rfl⟩
  rw [if_neg c36] at h
  by_cases c37 : op = 111
  · rw [if_pos c37] at h
    obtain ⟨v, rfl⟩ := stepU16_go _ _ _ _ h
    left; exact ⟨rfl, rfl⟩
  rw [if_neg c37] at h
  by_cases c38 : op = 112
  · rw [if_pos c38] at h
    obtain ⟨v, rfl⟩ := stepU16_go _ _ _ _ h
    left; exact ⟨rfl, rfl⟩
  rw [if_neg c38] at h
  by_cases c39 : op = 113
  · rw [if_pos c39] at h
    obtain ⟨v, rfl⟩ := stepI8_go _ _ _ _ h
    left; exact ⟨rfl, rfl⟩
  rw [if_neg c39] at h
  by_cases c40 : op = 114
  · rw [if_pos c40] at h
    obtain ⟨v, rfl⟩ := stepI8_go _ _ _ _ h
    left; exact ⟨rfl, rfl⟩
  rw [if_neg c40] at h
  by_cases c41 : op = 115
  · rw [if_pos c41] at h
    obtain ⟨v, rfl⟩ := stepU8_go _ _ _ _ h
    left; exact ⟨rfl, rfl⟩
  rw [if_neg c41] at h
  by_cases c42 : op = 139
  · rw [if_pos c42] at h
    obtain ⟨v, rfl⟩ := stepU16_go _ _ _ _ h
    left; exact ⟨rfl, rfl⟩
  rw [if_neg c42] at h
  by_cases c43 : op = 140
  · rw [if_pos c43] at h
    obtain ⟨v, rfl⟩ := stepU16_go _ _ _ _ h
    left; exact ⟨rfl, rfl⟩
  rw [if_neg c43] at h
  by_cases c44 : op = 148
  · rw [if_pos c44] at h
    obtain ⟨v, rfl⟩ := stepU16_go _ _ _ _ h
    left; exact ⟨rfl, rfl⟩
  rw [if_neg c44] at h
  by_cases c45 : op = 149
  · rw [if_pos c45] at h
    obtain ⟨v, rfl⟩ := stepU16_go _ _ _ _ h
    left; exact ⟨rfl, rfl⟩
  rw [if_neg c45] at h
  by_cases c46 : op = 249
  · rw [if_pos c46] at h
    split at h
    · cases h
    cases h; left; exact ⟨rfl, rfl⟩
  rw [if_neg c46] at h
  cases h

set_option maxHeartbeats 2000000 in
/-- Only opcode 0 breaks the loop, and it returns the definition unchanged. -/
theorem decodeStep_stop (op : Nat) (d : ItemDefinition) (buf : List Nat)
    (d0 : ItemDefinition) (h : decodeStep op d buf = .stop d0) : op = 0 ∧ d0 = d := by
  unfold decodeStep at h
  by_cases c0 : op = 0
  · rw [if_pos c0] at h; cases h; exact ⟨c0, rfl⟩
  rw [if_neg c0] at h
  by_cases c1 : op = 1
  · rw [if_pos c1] at h; exact absurd h (stepU16_ne_stop _ _ _)
  rw [if_neg c1] at h
  by_cases c2 : op = 2
  · rw [if_pos c2] at h; exact absurd h (stepString_ne_stop _ _ _)
  rw [if_neg c2] at h
  by_cases c3 : op = 4
  · rw [if_pos c3] at h; exact absurd h (stepU16_ne_stop _ _ _)
  rw [if_neg c3] at h
  by_cases c4 : op = 5
  · rw [if_pos c4] at h; exact absurd h (stepU16_ne_stop _ _ _)
  rw [if_neg c4] at h
  by_cases c5 : op = 6
  · rw [if_pos c5] at h; exact absurd h (stepU16_ne_stop _ _ _)
  rw [if_neg c5] at h
  by_cases c6 : op = 7
  · rw [if_pos c6] at h; exact absurd h (stepU16_ne_stop _ _ _)
  rw [if_neg c6] at h
  by_cases c7 : op = 8
  · rw [if_pos c7] at h; exact absurd h (stepU16_ne_stop _ _ _)
  rw [if_neg c7] at h
  by_cases c8 : op = 9
  · rw [if_pos c8] at h; exact absurd h (stepString_ne_stop _ _ _)
  rw [if_neg c8] at h
  by_cases c9 : op = 11
  · rw [if_pos c9] at h; cases h
  rw [if_neg c9] at h
  by_cases c10 : op = 12
  · rw [if_pos c10] at h; exact absurd h (stepI32_ne_stop _ _ _)
  rw [if_neg c10] at h
  by_cases c11 : 13 ≤ op ∧ op ≤ 14
  · rw [if_pos c11] at h; exact absurd h (stepU8_ne_stop _ _ _)
  rw [if_neg c11] at h
  by_cases c12 : op = 16
  · rw [if_pos c12] at h; cases h
  rw [if_neg c12] at h
  by_cases c13 : op = 23
  · rw [if_pos c13] at h
    split at h
    · cases h
    split at h
    · cases h
    cases h
  rw [if_neg c13] at h
  by_cases c14 : op = 24
  · rw [if_pos c14] at h; exact absurd h (stepU16_ne_stop _ _ _)
  rw [if_neg c14] at h
  by_cases c15 : op = 25
  · rw [if_pos c15] at h
    split at h
    · cases h
    split at h
    · cases h
    cases h
  rw [if_neg c15] at h
  by_cases c16 : op = 26
  · rw [if_pos c16] at h; exact absurd h (stepU16_ne_stop _ _ _)
  rw [if_neg c16] at h
  by_cases c17 : op = 27
  · rw [if_pos c17] at h; exact absurd h (stepU8_ne_stop _ _ _)
  rw [if_neg c17] at h
  by_cases c18 : 30 ≤ op ∧ op ≤ 34
  · rw [if_pos c18] at h; exact absurd h (stepString_ne_stop _ _ _)
  rw [if_neg c18] at h
  by_cases c19 : 35 ≤ op ∧ op ≤ 39
  · rw [if_pos c19] at h; exact absurd h (stepString_ne_stop _ _ _)
  rw [if_neg c19] at h
  by_cases c20 : op = 40
  · rw [if_pos c20] at h
    split at h
    · cases h
    split at h
    · cases h
    cases h
  rw [if_neg c20] at h
  by_cases c21 : op = 41
  · rw [if_pos c21] at h
    split at h
    · cases h
    split at h
    · cases h
    cases h
  rw [if_neg c21] at h
  by_cases c22 : op = 42
  · rw [if_pos c22] at h; exact absurd h (stepU8_ne_stop _ _ _)
  rw [if_neg c22] at h
  by_cases c23 : op = 65
  · rw [if_pos c23] at h; cases h
  rw [if_neg c23] at h
  by_cases c24 : op = 75
  · rw [if_pos c24] at h; exact absurd h (stepU16_ne_stop _ _ _)
  rw [if_neg c24] at h
  by_cases c25 : op = 78
  · rw [if_pos c25] at h; exact absurd h (stepU16_ne_stop _ _ _)
  rw [if_neg c25] at h
  by_cases c26 : op = 79
  · rw [if_pos c26] at h; exact absurd h (stepU16_ne_stop _ _ _)
  rw [if_neg c26] at h
  by_cases c27 : op = 90
  · rw [if_pos c27] at h; exact absurd h (stepU16_ne_stop _ _ _)
  rw [if_neg c27] at h
  by_cases c28 : op = 91
  · rw [if_pos c28] at h; exact absurd h (stepU16_ne_stop _ _ _)
  rw [if_neg c28] at h
  by_cases c29 : op = 92
  · rw [if_pos c29] at h; exact absurd h (stepU16_ne_stop _ _ _)
  rw [if_neg c29] at h
  by_cases c30 : op = 93
  · rw [if_pos c30] at h; exact absurd h (stepU16_ne_stop _ _ _)
  rw [if_neg c30] at h
  by_cases c31 : op = 94
  · rw [if_pos c31] at h; exact absurd h (stepU16_ne_stop _ _ _)
  rw [if_neg c31] at h
  by_cases c32 : op = 95
  · rw [if_pos c32] at h; exact absurd h (stepU16_ne_stop _ _ _)
  rw [if_neg c32] at h
  by_cases c33 : op = 97
  · rw [if_pos c33] at h; exact absurd h (stepU16_ne_stop _ _ _)
  rw [if_neg c33] at h
  by_cases c34 : op = 98
  · rw [if_pos c34] at h; exact absurd h (stepU16_ne_stop _ _ _)
  rw [if_neg c34] at h
  by_cases c35 : 100 ≤ op ∧ op ≤ 109
  · rw [if_pos c35] at h
    split at h
    · cases h
    split at h
    · cases h
    cases h
  rw [if_neg c35] at h
  by_cases c36 : op = 110
  · rw [if_pos c36] at h; exact absurd h (stepU16_ne_stop _ _ _)
  rw [if_neg c36] at h
  by_cases c37 : op = 111
  · rw [if_pos c37] at h; exact absurd h (stepU16_ne_stop _ _ _)
  rw [if_neg c37] at h
  by_cases c38 : op = 112
  · rw [if_pos c38] at h; exact absurd h (stepU16_ne_stop _ _ _)
  rw [if_neg c38] at h
  by_cases c39 : op = 113
  · rw [if_pos c39] at h; exact absurd h (stepI8_ne_stop _ _ _)
  rw [if_neg c39] at h
  by_cases c40 : op = 114
  · rw [if_pos c40] at h; exact absurd h (stepI8_ne_stop _ _ _)
  rw [if_neg c40] at h
  by_cases c41 : op = 115
  · rw [if_pos c41] at h; exact absurd h (stepU8_ne_stop _ _ _)
  rw [if_neg c41] at h
  by_cases c42 : op = 139
  · rw [if_pos c42] at h; exact absurd h (stepU16_ne_stop _ _ _)
  rw [if_neg c42] at h
  by_cases c43 : op = 140
  · rw [if_pos c43] at h; exact absurd h (stepU16_ne_stop _ _ _)
  rw [if_neg c43] at h
  by_cases c44 : op = 148
  · rw [if_pos c44] at h; exact absurd h (stepU16_ne_stop _ _ _)
  rw [if_neg c44] at h
  by_cases c45 : op = 149
  · rw [if_pos c45] at h; exact absurd h (stepU16_ne_stop _ _ _)
  rw [if_neg c45] at h
  by_cases c46 : op = 249
  · rw [if_pos c46] at h
    split at h
    · cases h
    cases h
  rw [if_neg c46] at h
  cases h

set_option maxHeartbeats 2000000 in
/-- For an opcode in 100..=109 the dispatch either fails on a truncated read
or continues with both stack fields set to the all-zero arrays. -/
theorem decodeStep_inrange (op : Nat) (d : ItemDefinition) (buf : List Nat)
    (h100 : 100 ≤ op) (h109 : op ≤ 109) :
    decodeStep op d buf = .eof
    ∨ ∃ b', decodeStep op d buf = .go (setStacksZero d) b' := by
  unfold decodeStep
  rw [if_neg (show ¬(op = 0) by omega)]
  rw [if_neg (show ¬(op = 1) by omega)]
  rw [if_neg (show ¬(op = 2) by omega)]
  rw [if_neg (show ¬(op = 4) by omega)]
  rw [if_neg (show ¬(op = 5) by omega)]
  rw [if_neg (show ¬(op = 6) by omega)]
  rw [if_neg (show ¬(op = 7) by omega)]
  rw [if_neg (show ¬(op = 8) by omega)]
  rw [if_neg (show ¬(op = 9) by omega)]
  rw [if_neg (show ¬(op = 11) by omega)]
  rw [if_neg (show ¬(op = 12) by omega)]
  rw [if_neg (show ¬(13 ≤ op ∧ op ≤ 14) by omega)]
  rw [if_neg (show ¬(op = 16) by omega)]
  rw [if_neg (show ¬(op = 23) by omega)]
  rw [if_neg (show ¬(op = 24) by omega)]
  rw [if_neg (show ¬(op = 25) by omega)]
  rw [if_neg (show ¬(op = 26) by omega)]
  rw [if_neg (show ¬(op = 27) by omega)]
  rw [if_neg (show ¬(30 ≤ op ∧ op ≤ 34) by omega)]
  rw [if_neg (show ¬(35 ≤ op ∧ op ≤ 39) by omega)]
  rw [if_neg (show ¬(op = 40) by omega)]
  rw [if_neg (show ¬(op = 41) by omega)]
  rw [if_neg (show ¬(op = 42) by omega)]
  rw [if_neg (show ¬(op = 65) by omega)]
  rw [if_neg (show ¬(op = 75) by omega)]
  rw [if_neg (show ¬(op = 78) by omega)]
  rw [if_neg (show ¬(op = 79) by omega)]
  rw [if_neg (show ¬(op = 90) by omega)]
  rw [if_neg (show ¬(op = 91) by omega)]
  rw [if_neg (show ¬(op = 92) by omega)]
  rw [if_neg (show ¬(op = 93) by omega)]
  rw [if_neg (show ¬(op = 94) by omega)]
  rw [if_neg (show ¬(op = 95) by omega)]
  rw [if_neg (show ¬(op = 97) by omega)]
  rw [if_neg (show ¬(op = 98) by omega)]
  rw [if_pos (show 100 ≤ op ∧ op ≤ 109 from ⟨h100, h109⟩)]
  rcases hu : be_u16 buf with _ | ⟨v, buf1⟩
  · left; simp [hu]
  rcases hu2 : be_u16 buf1 with _ | ⟨w, buf2⟩
  · left; simp [hu, hu2]
  right; exact ⟨buf2, by simp [hu, hu2]⟩

/-- A successful run of the opcode loop keeps both stack fields at the
all-zero arrays once they hold them. -/
theorem decodeLoop_preserves (fuel : Nat) :
    ∀ (d : ItemDefinition) (buf : List Nat) (res : ItemDefinition),
      (decodeLoop fuel d buf).2 = .ok res →
      d.stack_ids = some (List.replicate 10 0) →
      d.stack_count = some (List.replicate 10 0) →
      res.stack_ids = some (List.replicate 10 0)
        ∧ res.stack_count = some (List.replicate 10 0) := by
  induction fuel with
  | zero => intro d buf res hok; simp [decodeLoop] at hok
  | succ fuel ih =>
    intro d buf res hok h1 h2
    simp only [decodeLoop] at hok
    cases hb : be_u8 buf with
    | none => simp [hb] at hok
    | some pr =>
      obtain ⟨op, buf1⟩ := pr
      simp only [hb] at hok
      cases hs : decodeStep op d buf1 with
      | stop d0 =>
        simp only [hs] at hok
        obtain ⟨-, rfl⟩ := decodeStep_stop op d buf1 d0 hs
        cases hok
        exact ⟨h1, h2⟩
      | eof => simp [hs] at hok
      | unreach => simp [hs] at hok
      | go d1 buf2 =>
        simp only [hs] at hok
        rcases decodeStep_stacks op d buf1 d1 buf2 hs with ⟨e1, e2⟩ | ⟨e1, e2⟩
        · exact ih d1 buf2 res hok (e1.trans h1) (e2.trans h2)
        · exact ih d1 buf2 res hok e1 e2

/-- If a successful run of the opcode loop processed any opcode in 100..=109,
the result's stack fields are the all-zero arrays. -/
theorem decodeLoop_trigger (fuel : Nat) :
    ∀ (d : ItemDefinition) (buf : List Nat) (res : ItemDefinition),
      (decodeLoop fuel d buf).2 = .ok res →
      (∃ op, op ∈ (decodeLoop fuel d buf).1 ∧ 100 ≤ op ∧ op ≤ 109) →
      res.stack_ids = some (List.replicate 10 0)
        ∧ res.stack_count = some (List.replicate 10 0) := by
  induction fuel with
  | zero => intro d buf res hok _; simp [decodeLoop] at hok
  | succ fuel ih =>
    intro d buf res hok hop
    simp only [decodeLoop] at hok hop
    cases hb : be_u8 buf with
    | none => simp [hb] at hok
    | some pr =>
      obtain ⟨op, buf1⟩ := pr
      simp only [hb] at hok hop
      cases hs : decodeStep op d buf1 with
      | stop d0 =>
        simp only [hs] at hok hop
        obtain ⟨o, ho, h100, h109⟩ := hop
        simp only [List.mem_singleton] at ho
        subst ho
        obtain ⟨rfl, -⟩ := decodeStep_stop o d buf1 d0 hs
        omega
      | eof => simp [hs] at hok
      | unreach => simp [hs] at hok
      | go d1 buf2 =>
        simp only [hs] at hok hop
        obtain ⟨o, ho, h100, h109⟩ := hop
        rcases List.mem_cons.mp ho with rfl | ho
        · rcases decodeStep_inrange o d buf1 h100 h109 with he | ⟨b2, hg⟩
          · rw [hs] at he; cases he
          · rw [hs] at hg
            cases hg
            exact decodeLoop_preserves fuel _ buf2 res hok rfl rfl
        · exact ih d1 buf2 res hok ⟨o, ho, h100, h109⟩

/-- C9: the item-definition decoder is not total — on the one-byte buffer
`[3]`, whose first opcode 3 is outside the handled set, `decode_buffer`
reaches the catch-all `unreachable!()` arm of the dispatch instead of
returning an error value. -/
theorem item_decode_hits_unreachable :
    (decode_buffer 0 [3]).2 = .unreachableHit := by decide

/-- C10: whenever the item decoder succeeds on a buffer and processed at
least one opcode in 100..=109, the resulting definition's `stack_ids` and
`stack_count` are `some` all-zero arrays: the two values read from the
buffer were written into by-value copies of the arrays and discarded. -/
theorem stack_arrays_discarded (id : Nat) (buffer : List Nat) (res : ItemDefinition)
    (hok : (decode_buffer id buffer).2 = .ok res)
    (hop : ∃ op, op ∈ (decode_buffer id buffer).1 ∧ 100 ≤ op ∧ op ≤ 109) :
    res.stack_ids = some (List.replicate 10 0)
      ∧ res.stack_count = some (List.replicate 10 0) :=
  decodeLoop_trigger (buffer.length + 1) (initItemDef id) buffer res hok hop

/-- Closed instance of `stack_arrays_discarded`: the buffer
`[100, 0, 5, 0, 6, 0]` decodes successfully through opcode 100 (reading the
two values 5 and 6, which are discarded) and both stack fields of the result
are the all-zero arrays. -/
theorem stack_arrays_discarded_witness :
    (setStacksZero (initItemDef 0)).stack_ids = some (List.replicate 10 0)
      ∧ (setStacksZero (initItemDef 0)).stack_count = some (List.replicate 10 0) :=
  stack_arrays_discarded 0 [100, 0, 5, 0, 6, 0] (setStacksZero (initItemDef 0))
    (by decide) ⟨100, by decide, by decide, by decide⟩

end RsCache
